import Mathlib

set_option autoImplicit false

namespace Llmade

/-! Shallow embedding of the llmade core: the Model, JSONParser, Prompt,
TextSplitter and DocumentPrompt classes of src/lib/llm.js and the
RateLimiter module.  External capabilities (the chat-completion transport,
the template renderer and tokenizer, zod validation, the fixing parser and
the langchain text splitter) are modelled as oracle functions supplied to
each definition.  JavaScript numbers are modelled as Nat for token counts
and as rationals for prices and costs. -/

/-- JavaScript Math.round on the nonnegative arguments used here:
floor(q + 1/2), truncated to Nat. -/
def natRound (q : ℚ) : Nat := (Int.floor (q + 1/2)).toNat

/-- JavaScript a || b for an optionally-present count: undefined and 0 are
both falsy, so either selects the fallback. -/
def jsOrNat (o : Option Nat) (dflt : Nat) : Nat :=
  match o with
  | some n => if n = 0 then dflt else n
  | none => dflt

/-- Model (src/lib/llm.js lines 45-77): per-model settings together with the
tokenizer capability (this.llm.getNumTokens, external) as an oracle. -/
structure Model where
  modelName : String
  maxTokens : Nat
  tokenTxPrice : ℚ
  tokensRxPrice : ℚ
  requestsPerMinute : Nat
  tokensPerMinute : Nat
  countTokens : String → Nat

/-- Model.calculateCost (lines 62-66). -/
def Model.calculateCost (m : Model) (tokensSent tokensReceived : Nat) : ℚ :=
  (tokensSent : ℚ) * m.tokenTxPrice + m.tokensRxPrice * (tokensReceived : ℚ)

/-- One invocation of the reportTokens callback.  The recorder in
RateLimiter.process is the arrow function of one parameter
(count) => ..., so a call passing a second argument (as the JSON repair
path does) has that second argument ignored. -/
structure ReportCall where
  first : Nat
  second : Option Nat
  deriving DecidableEq

/-- The value held by tokensUsed once the task has run: the last
reportTokens call wins, only its first argument is recorded, and the value
stays 0 when the callback was never invoked. -/
def tokensUsedOf (reports : List ReportCall) : Nat :=
  ((reports.getLast?).map ReportCall.first).getD 0

/-- The pair of Bottleneck reservoirs of one RateLimiter (limiter module,
lines 9-19).  Available counts are integers: the post-hoc token debit may
drive the token reservoir negative. -/
structure LimiterState where
  requestReservoir : Int
  tokenReservoir : Int
  deriving DecidableEq

/-- A unit of admitted work together with the reportTokens calls it makes
while running. -/
structure TaskRun (α : Type) where
  response : α
  reports : List ReportCall

/-- Observable events of one RateLimiter.process run, in execution order. -/
inductive LimEvent where
  | acquireRequest
  | acquireToken
  | runTask
  | debitTokens (n : Nat)
  deriving DecidableEq

/-- RateLimiter.process (limiter module, lines 22-35): schedule on the
request limiter, then on the token limiter (each schedule consumes one unit
of its reservoir and suspends the caller while that reservoir is empty),
run the task, then debit the token reservoir by the recorded count via
incrementReservoir(-tokensUsed).  In this timeless model, none means the
caller is still suspended awaiting capacity (never a failure) and some is
the completed run carrying the response, the final reservoirs and the
ordered events. -/
def RateLimiter.process {α : Type} (s : LimiterState) (task : TaskRun α) :
    Option (α × LimiterState × List LimEvent) :=
  if 1 ≤ s.requestReservoir ∧ 1 ≤ s.tokenReservoir then
    some (task.response,
      ⟨s.requestReservoir - 1, s.tokenReservoir - 1 - (tokensUsedOf task.reports : Int)⟩,
      [LimEvent.acquireRequest, LimEvent.acquireToken, LimEvent.runTask,
        LimEvent.debitTokens (tokensUsedOf task.reports)])
  else none

/-- The value built by JSONParser.parse (src/lib/llm.js lines 103-129):
only res.data on the direct path; on the repair path also the extra token
fields, the cost field and res.parserFixed = true.  JS fields that are
left unset are none, and the unset parserFixed flag is false.  The cost
field is none also on the repair path: the secondary model is constructed
from the model name alone (lines 93-96), so its price settings are the JS
undefined and its calculateCost value is NaN; NaN and an absent field are
both falsy and behave identically under the cost || 0 read in
Prompt.call, and the embedding collapses both to none. -/
structure ParseRes (α : Type) where
  data : α
  tokensSent : Option Nat
  tokensReceived : Option Nat
  cost : Option ℚ
  parserFixed : Bool
  deriving DecidableEq

/-- One run of JSONParser.parse: the returned value (none when the direct
and the fixing parse both fail, so the error propagates to the caller),
whether the repair pass was entered, and the reportTokens calls made inside
the repair task. -/
structure ParseTrace (α : Type) where
  result : Option (ParseRes α)
  repairInvoked : Bool
  reports : List ReportCall
  deriving DecidableEq

/-- JSONParser (src/lib/llm.js lines 84-130).  The StructuredOutputParser,
the OutputFixingParser and JSON.stringify are external and appear as
oracles returning none where the source throws; model is the secondary
temperature-0 Model instance built in the constructor from the model name
alone, so in the source its maxTokens and price fields are undefined (its
tokenizer and its shared rate limiter still work). -/
structure JSONParser (α : Type) where
  model : Model
  directParse : String → Option α
  fixParse : String → Option α
  stringify : α → String

/-- JSONParser.parse (lines 103-129).  The direct parse returns only data.
On its failure the repair task runs under this.model.rateLimiter.process:
it estimates the sent side as Math.round(promptTokens * 1.10), measures the
received side on the stringified repaired value, computes the cost (NaN in
the source, because the secondary model carries no price settings;
modelled none, see ParseRes) and calls
reportTokens(tokensSent, tokensReceived), whose second argument the
recorder drops.  The rateLimiter parameter of the source is unused by the
body and omitted here; reservoir accounting is composed with
RateLimiter.process in the theorems. -/
def JSONParser.parse {α : Type} (p : JSONParser α) (text : String)
    (promptTokens : Nat) : ParseTrace α :=
  match p.directParse text with
  | some v => ⟨some ⟨v, none, none, none, false⟩, false, []⟩
  | none =>
    match p.fixParse text with
    | none => ⟨none, true, []⟩
    | some data =>
      let tokensSent := natRound ((promptTokens : ℚ) * (11/10))
      let tokensReceived := p.model.countTokens (p.stringify data)
      ⟨some ⟨data, some tokensSent, some tokensReceived, none, true⟩,
        true, [⟨tokensSent, some tokensReceived⟩]⟩

/-- Per-attempt outcome of the completion capability this.chain.call:
either a thrown error or the raw response text. -/
inductive ChainOutcome where
  | throwErr (msg : String)
  | ok (text : String)
  deriving DecidableEq

/-- Errors thrown by Prompt.call: the budget check (line 207), a completion
failure, or a parse failure (both the direct and the fixing parse failed on
the raw text). -/
inductive CallError where
  | budgetExceeded
  | chainError (msg : String)
  | parseError (rawText : String)
  deriving DecidableEq

/-- The object returned by Prompt.call (lines 221-225 and 245-250); the
dryrun return carries no response field, modelled as none. -/
structure CallResult (α : Type) where
  response : Option α
  tokensSent : Nat
  tokensReceived : Nat
  cost : ℚ
  deriving DecidableEq

/-- How one Prompt.call invocation ends: a returned value, a thrown error,
or the undefined fall-through when the while loop body never runs
(retries = 0 on entry). -/
inductive CallOutcome (α : Type) where
  | ok (r : CallResult α)
  | err (e : CallError)
  | undef
  deriving DecidableEq

/-- One Prompt.call run: its outcome, the number of admitted
call-and-parse attempts begun (completion-capability invocations), and the
number of Delay(retryDelay) sleeps performed. -/
structure CallTrace (α : Type) where
  result : CallOutcome α
  attempts : Nat
  sleeps : Nat
  deriving DecidableEq

/-- The per-call inputs of Prompt.call: the externally measured prompt
token count of the rendered templates (this.countTokens(promptData), the
tokenizer capability; countTokens is deterministic in the rendered prompt,
so the pre-check and per-attempt measurements coincide on one value), the
dryrun flag, and the caller-declared expected response length. -/
structure CallInput where
  tokenCount : Nat
  dryrun : Bool
  responseTokenLength : Option Nat

/-- Prompt (src/lib/llm.js lines 132-315): the wiring relevant to call is
the owning Model and the JSONParser built by setModel. -/
structure Prompt (α : Type) where
  model : Model
  parser : JSONParser α

/-- The retry loop of Prompt.call (lines 228-260).  The accumulators
tokensSent, tokensReceived and cost are closure-captured mutable variables
that survive failed attempts; each iteration adds the measured prompt
tokens and the raw-response tokens, adds calculateCost of the cumulative
totals, then parses (passing the cumulative tokensSent as promptTokens) and
adds the parse extras on success.  A thrown error decrements retries, is
rethrown when they reach zero, and otherwise sleeps before the next
attempt.  Each iteration runs under this.model.rateLimiter.process and
reports tokensSent + tokensReceived; reservoir accounting is verified
separately on RateLimiter.process. -/
def Prompt.callLoop {α : Type} (p : Prompt α) (tokenCount : Nat)
    (env : Nat → ChainOutcome) (i ts tr : Nat) (cost : ℚ) (sleeps : Nat) :
    Nat → CallTrace α
  | 0 => ⟨CallOutcome.undef, i, sleeps⟩
  | n + 1 =>
    match env i with
    | ChainOutcome.throwErr msg =>
      if n = 0 then ⟨CallOutcome.err (CallError.chainError msg), i + 1, sleeps⟩
      else Prompt.callLoop p tokenCount env (i + 1) ts tr cost (sleeps + 1) n
    | ChainOutcome.ok raw =>
      let ts1 := ts + tokenCount
      let tr1 := tr + p.model.countTokens raw
      let cost1 := cost + p.model.calculateCost ts1 tr1
      match (p.parser.parse raw ts1).result with
      | some pr =>
        ⟨CallOutcome.ok ⟨some pr.data, ts1 + pr.tokensSent.getD 0,
            tr1 + pr.tokensReceived.getD 0, cost1 + pr.cost.getD 0⟩,
          i + 1, sleeps⟩
      | none =>
        if n = 0 then ⟨CallOutcome.err (CallError.parseError raw), i + 1, sleeps⟩
        else Prompt.callLoop p tokenCount env (i + 1) ts1 tr1 cost1 (sleeps + 1) n

/-- Prompt.call (src/lib/llm.js lines 196-261).  The budget check
maxTokens - tokenCount < 0 throws before anything else; the dryrun branch
returns the estimate without entering the loop (the Nat subtraction
maxTokens - tokensSent agrees with the source because the branch is only
reached within budget); otherwise the retry loop runs. -/
def Prompt.call {α : Type} (p : Prompt α) (env : Nat → ChainOutcome)
    (inp : CallInput) (retries : Nat) : CallTrace α :=
  if ((p.model.maxTokens : Int) - (inp.tokenCount : Int)) < 0 then
    ⟨CallOutcome.err CallError.budgetExceeded, 0, 0⟩
  else if inp.dryrun then
    let tokensSent := inp.tokenCount
    let tokensReceived := jsOrNat inp.responseTokenLength (p.model.maxTokens - tokensSent)
    ⟨CallOutcome.ok ⟨none, tokensSent, tokensReceived,
        p.model.calculateCost tokensSent tokensReceived⟩, 0, 0⟩
  else Prompt.callLoop p inp.tokenCount env 0 0 0 0 0 retries

/-- One excerpt as produced by TextSplitter.splitText (lines 364-368). -/
structure DocExcerpt where
  excerpt : String
  excerptTokenLength : Nat
  excerptPercentageLength : Nat
  deriving DecidableEq

/-- The return value of TextSplitter.splitText (lines 371-374). -/
structure SplitResult where
  totalTextTokenLength : Nat
  excerpts : List DocExcerpt
  deriving DecidableEq

/-- TextSplitter (src/lib/llm.js lines 317-348): chunkSize and chunkOverlap
as configured on the underlying TokenTextSplitter; createDocuments is the
external langchain splitter, as an oracle producing the page contents. -/
structure TextSplitter where
  chunkSize : Nat
  chunkOverlap : Nat
  model : Model
  createDocuments : String → List String

/-- TextSplitter.splitText (lines 350-375): count the whole document,
split, keep the truthy (nonempty) page contents, fall back to the whole
text when none remain, add chunkOverlap per chunk to the total, and build
the excerpt records with Math.round percentage metadata. -/
def TextSplitter.splitText (t : TextSplitter) (text : String) : SplitResult :=
  let total0 := t.model.countTokens text
  let chunks0 := (t.createDocuments text).filter (fun c => c ≠ "")
  let chunks := if chunks0.length = 0 then [text] else chunks0
  let totalTextTokenLength := total0 + t.chunkOverlap * chunks.length
  ⟨totalTextTokenLength,
    chunks.map (fun ex =>
      ⟨ex, t.model.countTokens ex,
        natRound ((t.model.countTokens ex : ℚ) / (totalTextTokenLength : ℚ) * 100)⟩)⟩

/-- Per-excerpt outcome of this.prompt.call in the DocumentPrompt loop:
either a thrown error (caught and logged by the loop) or the returned
fields.  A falsy response value is modelled as none, matching
data?.response || response keeping the previous response. -/
inductive ExcerptStep (α : Type) where
  | throwErr
  | ok (response : Option α) (tokensSent tokensReceived : Nat) (cost : ℚ)
  deriving DecidableEq

/-- Whether the excerpt outcome is a thrown error. -/
def ExcerptStep.isThrow {α : Type} : ExcerptStep α → Bool
  | ExcerptStep.throwErr => true
  | ExcerptStep.ok _ _ _ _ => false

/-- Per-excerpt external data: the token count measured by
this.prompt.countTokens(args) in the dryrun branch, and the
this.prompt.call outcome in the live branch. -/
structure ExcerptEnv (α : Type) where
  measuredTokens : Nat
  callOutcome : ExcerptStep α
  deriving DecidableEq

/-- The mutable loop state of DocumentPrompt.call (lines 466-471). -/
structure DocState (α : Type) where
  count : Nat
  tokensSent : Nat
  tokensReceived : Nat
  cost : ℚ
  response : Option α
  currentTokenCount : Nat
  deriving DecidableEq

/-- DocumentPrompt (src/lib/llm.js lines 378-456): the fields its call loop
reads are the prompt model and the response token length. -/
structure DocumentPrompt (α : Type) where
  model : Model
  responseTokenLength : Nat

/-- The successful-excerpt state update of one loop iteration (lines
495-504): accumulate cost and the token totals (data?.cost || 0 and
friends), keep the old response when the new one is absent or falsy, then
advance currentTokenCount by the excerpt token length and increment
count. -/
def DocumentPrompt.applyOk {α : Type} (s : DocState α) (ex : DocExcerpt)
    (resp : Option α) (ts tr : Nat) (c : ℚ) : DocState α :=
  ⟨s.count + 1, s.tokensSent + ts, s.tokensReceived + tr, s.cost + c,
    match resp with
    | some v => some v
    | none => s.response,
    s.currentTokenCount + ex.excerptTokenLength⟩

/-- The dryrun state update of one loop iteration (lines 489-493 and
503-504): tokensSent and tokensReceived both grow by tokenCount +
responseTokenLength, and the cost grows by the price formula applied to the
cumulative totals. -/
def DocumentPrompt.applyDry {α : Type} (d : DocumentPrompt α) (s : DocState α)
    (ex : DocExcerpt) (tokenCount : Nat) : DocState α :=
  let ts := s.tokensSent + tokenCount + d.responseTokenLength
  let tr := s.tokensReceived + tokenCount + d.responseTokenLength
  ⟨s.count + 1, ts, tr, s.cost + d.model.calculateCost ts tr, s.response,
    s.currentTokenCount + ex.excerptTokenLength⟩

/-- The excerpt loop of DocumentPrompt.call (lines 473-520).  The whole
body runs inside try/catch: a throwing excerpt is logged and leaves the
state untouched, and iteration continues.  After a processed excerpt the
progress callback, when present, receives the running state, and the
sentinel return value stop breaks the loop.  The percentage arguments
passed to the prompt and the callback are derived from the state and do not
affect control flow, so the callback input is modelled as the state
itself. -/
def DocumentPrompt.callLoop {α : Type} (d : DocumentPrompt α)
    (progress : Option (DocState α → String)) (dryrun : Bool) (s : DocState α) :
    List (DocExcerpt × ExcerptEnv α) → DocState α
  | [] => s
  | (ex, envd) :: rest =>
    if dryrun then
      let s1 := DocumentPrompt.applyDry d s ex envd.measuredTokens
      match progress with
      | none => DocumentPrompt.callLoop d progress dryrun s1 rest
      | some f =>
        if f s1 = "stop" then s1 else DocumentPrompt.callLoop d progress dryrun s1 rest
    else
      match envd.callOutcome with
      | ExcerptStep.throwErr => DocumentPrompt.callLoop d progress dryrun s rest
      | ExcerptStep.ok resp ts tr c =>
        let s1 := DocumentPrompt.applyOk s ex resp ts tr c
        match progress with
        | none => DocumentPrompt.callLoop d progress dryrun s1 rest
        | some f =>
          if f s1 = "stop" then s1 else DocumentPrompt.callLoop d progress dryrun s1 rest

/-- DocumentPrompt.call (lines 458-528), from the split excerpts paired
with their per-excerpt external data; the source returns the response,
cost, tokensSent and tokensReceived projection of the final state. -/
def DocumentPrompt.call {α : Type} (d : DocumentPrompt α)
    (steps : List (DocExcerpt × ExcerptEnv α))
    (progress : Option (DocState α → String)) (dryrun : Bool) : DocState α :=
  DocumentPrompt.callLoop d progress dryrun ⟨0, 0, 0, 0, none, 0⟩ steps

/-! Concrete instances used by witnesses and counterexamples: unit prices,
string length as the tokenizer oracle, and small parse/completion
oracles. -/

/-- The tokenizer oracle of the concrete model: fixed counts for the
handful of texts the witnesses and counterexamples use. -/
def ceCount : String → Nat := fun s =>
  if s = "bad" then 3
  else if s = "good" then 4
  else if s = "fixme" then 5
  else if s = "7" then 1
  else if s = "abcde" then 5
  else if s = "ab" then 2
  else if s = "cde" then 3
  else 1

/-- A concrete model: max context 100, unit prices, ceCount as the
tokenizer. -/
def ceModel : Model := ⟨"m", 100, 1, 1, 60, 60000, ceCount⟩

/-- A concrete parser: the direct parse accepts only the text good, the
fixing parse repairs only the text fixme, both to the value 7, which
stringifies to a one-character string. -/
def ceParser : JSONParser Nat :=
  ⟨ceModel,
    fun s => if s = "good" then some 7 else none,
    fun s => if s = "fixme" then some 7 else none,
    fun _ => "7"⟩

def cePrompt : Prompt Nat := ⟨ceModel, ceParser⟩

/-- Completion oracle whose first attempt returns unparseable text and
whose later attempts return directly parseable text. -/
def ceEnvParseFail : Nat → ChainOutcome :=
  fun i => if i = 0 then ChainOutcome.ok "bad" else ChainOutcome.ok "good"

/-- Completion oracle that always throws. -/
def ceEnvThrow : Nat → ChainOutcome := fun _ => ChainOutcome.throwErr "boom"

/-- Completion oracle whose first attempt throws and whose later attempts
return directly parseable text. -/
def ceEnvThrowThenGood : Nat → ChainOutcome :=
  fun i => if i = 0 then ChainOutcome.throwErr "boom" else ChainOutcome.ok "good"

/-- Completion oracle that always returns text only the repair pass can
coerce. -/
def ceEnvFixOnly : Nat → ChainOutcome := fun _ => ChainOutcome.ok "fixme"

def ceInput : CallInput := ⟨1, false, none⟩

/-- A dryrun input declaring an expected response length of 4. -/
def ceDryInput : CallInput := ⟨3, true, some 4⟩

/-- A dryrun input declaring an expected response length of 0. -/
def ceDryZeroInput : CallInput := ⟨3, true, some 0⟩

/-- A concrete splitter with overlap 2 whose external splitter yields two
nonempty chunks. -/
def ceSplitter : TextSplitter := ⟨100, 2, ceModel, fun _ => ["ab", "cde"]⟩

def ceDoc : DocumentPrompt Nat := ⟨ceModel, 10⟩

def ceExcerptOne : DocExcerpt := ⟨"a", 5, 50⟩

def ceExcerptTwo : DocExcerpt := ⟨"b", 5, 50⟩

/-- A two-excerpt run whose excerpts both succeed, with distinct
responses. -/
def ceTwoSteps : List (DocExcerpt × ExcerptEnv Nat) :=
  [(ceExcerptOne, ⟨0, ExcerptStep.ok (some 41) 9 8 7⟩),
    (ceExcerptTwo, ⟨0, ExcerptStep.ok (some 42) 9 8 7⟩)]

/-- A progress callback that always answers the stop sentinel. -/
def ceStopCallback : DocState Nat → String := fun _ => "stop"

/-! Helper lemmas shared by the claim theorems. -/

/-- The price formula is additive in both token totals. -/
theorem calculateCost_add (m : Model) (a b c d : Nat) :
    m.calculateCost a b + m.calculateCost c d = m.calculateCost (a + c) (b + d) := by
  simp only [Model.calculateCost]
  push_cast
  ring

/-- The price formula is nonnegative for nonnegative prices. -/
theorem calculateCost_nonneg (m : Model) (a b : Nat)
    (htx : 0 ≤ m.tokenTxPrice) (hrx : 0 ≤ m.tokensRxPrice) :
    0 ≤ m.calculateCost a b := by
  have ha : (0 : ℚ) ≤ (a : ℚ) := by positivity
  have hb : (0 : ℚ) ≤ (b : ℚ) := by positivity
  simp only [Model.calculateCost]
  nlinarith

/-- The price formula is positive once at least one token is sent at a
positive sent-side price and the received-side price is nonnegative. -/
theorem calculateCost_pos (m : Model) (a b : Nat) (ha : 1 ≤ a)
    (htx : 0 < m.tokenTxPrice) (hrx : 0 ≤ m.tokensRxPrice) :
    0 < m.calculateCost a b := by
  have ha' : (1 : ℚ) ≤ (a : ℚ) := by exact_mod_cast ha
  have hb : (0 : ℚ) ≤ (b : ℚ) := by positivity
  simp only [Model.calculateCost]
  nlinarith

/-- Math.round of 1.10 times a positive count is positive. -/
theorem one_le_natRound_mul (P : Nat) (hP : 1 ≤ P) :
    1 ≤ natRound ((P : ℚ) * (11/10)) := by
  unfold natRound
  have hP' : (1 : ℚ) ≤ (P : ℚ) := by exact_mod_cast hP
  have h1 : (1 : ℚ) ≤ (P : ℚ) * (11/10) + 1/2 := by nlinarith
  have h2 : (1 : ℤ) ≤ Int.floor ((P : ℚ) * (11/10) + 1/2) := by
    rw [Int.le_floor]
    exact_mod_cast h1
  omega

/-- JSONParser.parse fails exactly when the direct and the fixing parse
both fail on the raw text. -/
theorem parse_result_none_iff {α : Type} (p : JSONParser α) (text : String) (P : Nat) :
    (p.parse text P).result = none ↔
      p.directParse text = none ∧ p.fixParse text = none := by
  unfold JSONParser.parse
  cases hd : p.directParse text with
  | some v => simp [hd]
  | none =>
    cases hf : p.fixParse text with
    | some w => simp [hf]
    | none => simp [hf]

/-! Evaluations of the concrete instances, used by witnesses and
counterexamples (rational arithmetic does not reduce in the kernel, so
these are established once by simp and norm_num). -/

/-- The repair pass on the text fixme at prompt token count 5: the
estimated sent side is round(5 * 1.10) = 6 and the cost field holds no
finite value. -/
theorem ceParser_parse_fixme_five :
    ceParser.parse "fixme" 5 =
      ⟨some ⟨7, some 6, some 1, none, true⟩, true, [⟨6, some 1⟩]⟩ := by
  simp [JSONParser.parse, ceParser, ceModel, ceCount]
  norm_num [natRound, show Int.toNat 6 = 6 from rfl]

/-- The repair pass on the text fixme at prompt token count 0: the
estimated sent side is round(0 * 1.10) = 0. -/
theorem ceParser_parse_fixme_zero :
    ceParser.parse "fixme" 0 =
      ⟨some ⟨7, some 0, some 1, none, true⟩, true, [⟨0, some 1⟩]⟩ := by
  simp [JSONParser.parse, ceParser, ceModel, ceCount]
  norm_num [natRound]

/-- The call whose first attempt returns unparseable text (the accumulated
tokens and cost survive into the second, successful attempt, and the cost
increment re-counts the cumulative totals): final cost 13 against token
totals 2 and 7. -/
theorem cePrompt_call_parsefail_eval :
    Prompt.call cePrompt ceEnvParseFail ceInput 5 =
      ⟨CallOutcome.ok ⟨some 7, 2, 7, 13⟩, 2, 1⟩ := by
  simp [Prompt.call, Prompt.callLoop, cePrompt, ceModel, ceParser, ceCount, ceInput,
    ceEnvParseFail, JSONParser.parse, Model.calculateCost]
  norm_num [natRound]

/-- The call whose single attempt succeeds through the repair pass: the
repair's token extras are added to the totals but its cost extra is the
falsy NaN, so the final cost 6 covers only the raw completion. -/
theorem cePrompt_call_fixonly_eval :
    Prompt.call cePrompt ceEnvFixOnly ceInput 5 =
      ⟨CallOutcome.ok ⟨some 7, 2, 6, 6⟩, 1, 0⟩ := by
  simp [Prompt.call, Prompt.callLoop, cePrompt, ceModel, ceParser, ceCount, ceInput,
    ceEnvFixOnly, JSONParser.parse, Model.calculateCost]
  norm_num [natRound]

/-- The call whose first attempt throws at the completion step and whose
second attempt direct-parses: nothing survives the failed attempt and the
final cost 5 equals the price formula on the totals 1 and 4. -/
theorem cePrompt_call_throwgood_eval :
    Prompt.call cePrompt ceEnvThrowThenGood ceInput 2 =
      ⟨CallOutcome.ok ⟨some 7, 1, 4, 5⟩, 2, 1⟩ := by
  simp [Prompt.call, Prompt.callLoop, cePrompt, ceModel, ceParser, ceCount, ceInput,
    ceEnvThrowThenGood, JSONParser.parse, Model.calculateCost]
  norm_num [natRound]

/-- The concrete split of the text abcde: whole-document count 5, two
chunks of counts 2 and 3, total 5 + 2 * 2 = 9, percentages round(200/9) =
22 and round(300/9) = 33. -/
theorem ceSplitter_splitText_eval :
    ceSplitter.splitText "abcde" = ⟨9, [⟨"ab", 2, 22⟩, ⟨"cde", 3, 33⟩]⟩ := by
  simp [TextSplitter.splitText, ceSplitter, ceModel, ceCount, List.filter_cons,
    List.filter_nil]
  norm_num [natRound]
  decide

/-- With at least one unit of fuel, the retry loop makes at least one
further attempt. -/
theorem callLoop_attempts_lb {α : Type} (p : Prompt α) (tc : Nat)
    (env : Nat → ChainOutcome) :
    ∀ n i ts tr cost sleeps, 1 ≤ n →
      i + 1 ≤ (Prompt.callLoop p tc env i ts tr cost sleeps n).attempts := by
  intro n
  induction n with
  | zero => intro i ts tr cost sleeps h; omega
  | succ m ih =>
    intro i ts tr cost sleeps _
    rw [Prompt.callLoop]
    cases henv : env i with
    | throwErr msg =>
      by_cases hm : m = 0
      · subst hm; simp
      · simp only [if_neg hm]
        have h := ih (i + 1) ts tr cost (sleeps + 1) (by omega)
        omega
    | ok raw =>
      simp only
      cases hp : (p.parser.parse raw (ts + tc)).result with
      | some pr => simp
      | none =>
        by_cases hm : m = 0
        · subst hm; simp
        · simp only [if_neg hm]
          have h := ih (i + 1) (ts + tc) (tr + p.model.countTokens raw)
            (cost + p.model.calculateCost (ts + tc) (tr + p.model.countTokens raw))
            (sleeps + 1) (by omega)
          omega

/-- The retry loop of Prompt.call, started at attempt index i with fuel n
of at least 1: it makes between 1 and n further attempts, sleeps once after
every failed attempt except the last, and when it ends in an error it has
used all n attempts and the error is the one thrown by the last attempt:
either the completion failure of that attempt, or its parse failure (both
the direct and the fixing parse failed on that attempt's raw text). -/
theorem callLoop_spec {α : Type} (p : Prompt α) (tc : Nat)
    (env : Nat → ChainOutcome) :
    ∀ n, 1 ≤ n → ∀ i ts tr cost sleeps,
      (Prompt.callLoop p tc env i ts tr cost sleeps n).attempts ≤ i + n ∧
      i + 1 ≤ (Prompt.callLoop p tc env i ts tr cost sleeps n).attempts ∧
      (Prompt.callLoop p tc env i ts tr cost sleeps n).sleeps =
        sleeps + ((Prompt.callLoop p tc env i ts tr cost sleeps n).attempts - i) - 1 ∧
      ∀ e, (Prompt.callLoop p tc env i ts tr cost sleeps n).result = CallOutcome.err e →
        (Prompt.callLoop p tc env i ts tr cost sleeps n).attempts = i + n ∧
        ((∃ msg, env (i + n - 1) = ChainOutcome.throwErr msg ∧ e = CallError.chainError msg) ∨
         (∃ raw, env (i + n - 1) = ChainOutcome.ok raw ∧
           p.parser.directParse raw = none ∧ p.parser.fixParse raw = none ∧
           e = CallError.parseError raw)) := by
  intro n
  induction n with
  | zero => intro h; omega
  | succ m ih =>
    intro _ i ts tr cost sleeps
    rw [Prompt.callLoop]
    cases henv : env i with
    | throwErr msg =>
      by_cases hm : m = 0
      · subst hm
        refine ⟨by simp, by simp, by simp, ?_⟩
        intro e he
        simp only [if_pos rfl] at he ⊢
        refine ⟨by simp, Or.inl ⟨msg, ?_, ?_⟩⟩
        · simpa using henv
        · simpa using he.symm
      · simp only [if_neg hm]
        obtain ⟨h1, h2, h3, h4⟩ := ih (by omega) (i + 1) ts tr cost (sleeps + 1)
        refine ⟨by omega, by omega, by omega, ?_⟩
        intro e he
        obtain ⟨ha, hb⟩ := h4 e he
        have hidx : i + 1 + m - 1 = i + (m + 1) - 1 := by omega
        rw [hidx] at hb
        exact ⟨by omega, hb⟩
    | ok raw =>
      simp only
      cases hp : (p.parser.parse raw (ts + tc)).result with
      | some pr =>
        refine ⟨by simp, by simp, by simp, ?_⟩
        intro e he
        simp at he
      | none =>
        by_cases hm : m = 0
        · subst hm
          refine ⟨by simp, by simp, by simp, ?_⟩
          intro e he
          simp only [if_pos rfl] at he ⊢
          have hpn := (parse_result_none_iff p.parser raw (ts + tc)).mp hp
          refine ⟨by simp, Or.inr ⟨raw, ?_, hpn.1, hpn.2, ?_⟩⟩
          · simpa using henv
          · simpa using he.symm
        · simp only [if_neg hm]
          obtain ⟨h1, h2, h3, h4⟩ := ih (by omega) (i + 1) (ts + tc)
            (tr + p.model.countTokens raw)
            (cost + p.model.calculateCost (ts + tc) (tr + p.model.countTokens raw))
            (sleeps + 1)
          refine ⟨by omega, by omega, by omega, ?_⟩
          intro e he
          obtain ⟨ha, hb⟩ := h4 e he
          have hidx : i + 1 + m - 1 = i + (m + 1) - 1 := by omega
          rw [hidx] at hb
          exact ⟨by omega, hb⟩

/-! Claim C2. -/

/-- C2: when the measured prompt token count exceeds the model's max
context tokens (maxContextTokens - promptTokenCount < 0), Prompt.call
throws the budget-exceeded error immediately, before any
completion-capability invocation (attempts = 0) and with zero retry
attempts and zero sleeps. -/
theorem prompt_call_budget_exceeded {α : Type} (p : Prompt α)
    (env : Nat → ChainOutcome) (inp : CallInput) (retries : Nat)
    (h : ((p.model.maxTokens : Int) - (inp.tokenCount : Int)) < 0) :
    Prompt.call p env inp retries =
      ⟨CallOutcome.err CallError.budgetExceeded, 0, 0⟩ := by
  simp [Prompt.call, h]

/-- Witness for C2 at a concrete over-budget input. -/
theorem prompt_call_budget_exceeded_witness :
    ((cePrompt.model.maxTokens : Int) - ((1000 : Nat) : Int)) < 0 ∧
    Prompt.call cePrompt ceEnvThrow ⟨1000, false, none⟩ 5 =
      ⟨CallOutcome.err CallError.budgetExceeded, 0, 0⟩ :=
  ⟨by decide,
    prompt_call_budget_exceeded cePrompt ceEnvThrow ⟨1000, false, none⟩ 5 (by decide)⟩

/-! Claim C9. -/

/-- C9: once both the request reservoir and the token reservoir hold at
least one unit, process admits the task (none, the suspended case, cannot
occur), executes it and returns its response, and only after the task has
run (the debit event follows the run event) debits the token reservoir by
exactly the token consumption the task reported through its callback, an
amount that is not capped by the initial reservation of one unit each
schedule takes. -/
theorem ratelimiter_process_admit {α : Type} (s : LimiterState) (task : TaskRun α)
    (hreq : 1 ≤ s.requestReservoir) (htok : 1 ≤ s.tokenReservoir) :
    RateLimiter.process s task =
      some (task.response,
        ⟨s.requestReservoir - 1,
          s.tokenReservoir - 1 - (tokensUsedOf task.reports : Int)⟩,
        [LimEvent.acquireRequest, LimEvent.acquireToken, LimEvent.runTask,
          LimEvent.debitTokens (tokensUsedOf task.reports)]) := by
  simp [RateLimiter.process, hreq, htok]

/-- Witness for C9: a task reporting 3 tokens, exceeding the initial
reservation of 1, debits exactly 3 after running. -/
theorem ratelimiter_process_admit_witness :
    (1 : Int) ≤ (⟨2, 5⟩ : LimiterState).requestReservoir ∧
    (1 : Int) ≤ (⟨2, 5⟩ : LimiterState).tokenReservoir ∧
    RateLimiter.process (⟨2, 5⟩ : LimiterState) (⟨42, [⟨3, none⟩]⟩ : TaskRun Nat) =
      some (42, ⟨1, 1⟩,
        [LimEvent.acquireRequest, LimEvent.acquireToken, LimEvent.runTask,
          LimEvent.debitTokens 3]) :=
  ⟨by decide, by decide,
    ratelimiter_process_admit ⟨2, 5⟩ ⟨42, [⟨3, none⟩]⟩ (by decide) (by decide)⟩

/-! Claim C10. -/

/-- C10: a repair pass issues exactly one reportTokens call, whose first
argument is the estimated sent-side count round(promptTokenCount * 1.10)
and whose second argument is the measured received-side count; the
recorder keeps only the first argument, so running the repair task through
RateLimiter.process debits the token reservoir by exactly the estimated
sent-side count (beyond the one-unit admission reservation) and the
received-side count is debited from no reservoir. -/
theorem jsonparser_repair_reservoir_debit {α : Type} (p : JSONParser α)
    (text : String) (P : Nat) (w : α) (s : LimiterState)
    (hdir : p.directParse text = none) (hfix : p.fixParse text = some w)
    (hreq : 1 ≤ s.requestReservoir) (htok : 1 ≤ s.tokenReservoir) :
    (p.parse text P).reports =
      [⟨natRound ((P : ℚ) * (11/10)), some (p.model.countTokens (p.stringify w))⟩] ∧
    tokensUsedOf (p.parse text P).reports = natRound ((P : ℚ) * (11/10)) ∧
    (∀ b : Option Nat,
      tokensUsedOf [⟨natRound ((P : ℚ) * (11/10)), b⟩] = natRound ((P : ℚ) * (11/10))) ∧
    ∀ v : α,
      RateLimiter.process s (⟨v, (p.parse text P).reports⟩ : TaskRun α) =
        some (v,
          ⟨s.requestReservoir - 1,
            s.tokenReservoir - 1 - (natRound ((P : ℚ) * (11/10)) : Int)⟩,
          [LimEvent.acquireRequest, LimEvent.acquireToken, LimEvent.runTask,
            LimEvent.debitTokens (natRound ((P : ℚ) * (11/10)))]) := by
  have hrep : (p.parse text P).reports =
      [⟨natRound ((P : ℚ) * (11/10)), some (p.model.countTokens (p.stringify w))⟩] := by
    unfold JSONParser.parse
    simp [hdir, hfix]
  refine ⟨hrep, ?_, ?_, ?_⟩
  · rw [hrep]; simp [tokensUsedOf]
  · intro b; simp [tokensUsedOf]
  · intro v
    rw [hrep]
    simp [RateLimiter.process, hreq, htok, tokensUsedOf]

/-- Witness for C10 at the concrete parser, repairing the text fixme with
prompt token count 5: the estimated sent side is round(5.5) = 6 and the
token reservoir drops from 10 to 10 - 1 - 6 = 3, untouched by the repair's
received count. -/
theorem jsonparser_repair_reservoir_debit_witness :
    ceParser.directParse "fixme" = none ∧
    ceParser.fixParse "fixme" = some 7 ∧
    (1 : Int) ≤ (⟨2, 10⟩ : LimiterState).requestReservoir ∧
    (1 : Int) ≤ (⟨2, 10⟩ : LimiterState).tokenReservoir ∧
    ((ceParser.parse "fixme" 5).reports =
      [⟨natRound ((5 : ℚ) * (11/10)), some (ceParser.model.countTokens (ceParser.stringify 7))⟩] ∧
    tokensUsedOf (ceParser.parse "fixme" 5).reports = natRound ((5 : ℚ) * (11/10)) ∧
    (∀ b : Option Nat,
      tokensUsedOf [⟨natRound ((5 : ℚ) * (11/10)), b⟩] = natRound ((5 : ℚ) * (11/10))) ∧
    ∀ v : Nat,
      RateLimiter.process (⟨2, 10⟩ : LimiterState)
          (⟨v, (ceParser.parse "fixme" 5).reports⟩ : TaskRun Nat) =
        some (v,
          ⟨(⟨2, 10⟩ : LimiterState).requestReservoir - 1,
            (⟨2, 10⟩ : LimiterState).tokenReservoir - 1 - (natRound ((5 : ℚ) * (11/10)) : Int)⟩,
          [LimEvent.acquireRequest, LimEvent.acquireToken, LimEvent.runTask,
            LimEvent.debitTokens (natRound ((5 : ℚ) * (11/10)))])) :=
  ⟨by decide, by decide, by decide, by decide,
    jsonparser_repair_reservoir_debit ceParser "fixme" 5 7 ⟨2, 10⟩
      (by decide) (by decide) (by decide) (by decide)⟩

/-! Claim C3. -/

/-- C3: a non-dry-run, within-budget call with maxRetries at least 1
attempts the admitted call-and-parse cycle between 1 and maxRetries times,
sleeps the retry delay exactly once after each failed attempt except the
last, and when it ends in an error it has used all maxRetries attempts and
propagates the error thrown by the last attempt: the last attempt's
completion failure, or its parse failure (direct and fixing parse both
failed on that attempt's raw text). -/
theorem prompt_call_retry_loop {α : Type} (p : Prompt α) (env : Nat → ChainOutcome)
    (inp : CallInput) (retries : Nat)
    (hret : 1 ≤ retries) (hdry : inp.dryrun = false)
    (hbudget : 0 ≤ (p.model.maxTokens : Int) - (inp.tokenCount : Int)) :
    1 ≤ (Prompt.call p env inp retries).attempts ∧
    (Prompt.call p env inp retries).attempts ≤ retries ∧
    (Prompt.call p env inp retries).sleeps =
      (Prompt.call p env inp retries).attempts - 1 ∧
    ∀ e, (Prompt.call p env inp retries).result = CallOutcome.err e →
      (Prompt.call p env inp retries).attempts = retries ∧
      ((∃ msg, env (retries - 1) = ChainOutcome.throwErr msg ∧
          e = CallError.chainError msg) ∨
       (∃ raw, env (retries - 1) = ChainOutcome.ok raw ∧
          p.parser.directParse raw = none ∧ p.parser.fixParse raw = none ∧
          e = CallError.parseError raw)) := by
  have hnot : ¬ (((p.model.maxTokens : Int) - (inp.tokenCount : Int)) < 0) :=
    not_lt.mpr hbudget
  have hcall : Prompt.call p env inp retries =
      Prompt.callLoop p inp.tokenCount env 0 0 0 0 0 retries := by
    simp [Prompt.call, hnot, hdry]
  obtain ⟨h1, h2, h3, h4⟩ := callLoop_spec p inp.tokenCount env retries hret 0 0 0 0 0
  rw [hcall]
  refine ⟨by omega, by omega, by omega, ?_⟩
  intro e he
  obtain ⟨ha, hb⟩ := h4 e he
  have hz : (0 : Nat) + retries - 1 = retries - 1 := by omega
  rw [hz] at hb
  exact ⟨by omega, hb⟩

/-- Witness for C3 with two attempts that both throw at the completion
step: the call makes both attempts, sleeps once, and surfaces the second
attempt's error. -/
theorem prompt_call_retry_loop_witness :
    (1 ≤ 2) ∧ ceInput.dryrun = false ∧
    (0 : Int) ≤ (cePrompt.model.maxTokens : Int) - (ceInput.tokenCount : Int) ∧
    (1 ≤ (Prompt.call cePrompt ceEnvThrow ceInput 2).attempts ∧
     (Prompt.call cePrompt ceEnvThrow ceInput 2).attempts ≤ 2 ∧
     (Prompt.call cePrompt ceEnvThrow ceInput 2).sleeps =
       (Prompt.call cePrompt ceEnvThrow ceInput 2).attempts - 1 ∧
     ∀ e, (Prompt.call cePrompt ceEnvThrow ceInput 2).result = CallOutcome.err e →
       (Prompt.call cePrompt ceEnvThrow ceInput 2).attempts = 2 ∧
       ((∃ msg, ceEnvThrow (2 - 1) = ChainOutcome.throwErr msg ∧
           e = CallError.chainError msg) ∨
        (∃ raw, ceEnvThrow (2 - 1) = ChainOutcome.ok raw ∧
           cePrompt.parser.directParse raw = none ∧
           cePrompt.parser.fixParse raw = none ∧
           e = CallError.parseError raw))) :=
  ⟨by decide, rfl, by decide,
    prompt_call_retry_loop cePrompt ceEnvThrow ceInput 2 (by decide) rfl (by decide)⟩

/-! Claim C1. -/

/-- When the retry loop starts from zeroed accumulators and every raw
completion response direct-parses, failed attempts can only be completion
failures (accumulating nothing) and the successful attempt takes the
direct parse path, so the returned value has a present response and its
cost is exactly the price formula applied to its token totals. -/
theorem callLoop_ok_cost {α : Type} (p : Prompt α) (tc : Nat)
    (env : Nat → ChainOutcome)
    (hdir : ∀ j raw, env j = ChainOutcome.ok raw →
      ∃ v, p.parser.directParse raw = some v) :
    ∀ n i sleeps r,
      (Prompt.callLoop p tc env i 0 0 0 sleeps n).result = CallOutcome.ok r →
      r.response.isSome = true ∧
      r.cost = p.model.calculateCost r.tokensSent r.tokensReceived := by
  intro n
  induction n with
  | zero =>
    intro i sleeps r hr
    rw [Prompt.callLoop] at hr
    simp at hr
  | succ m ih =>
    intro i sleeps r hr
    cases henv : env i with
    | throwErr msg =>
      rw [Prompt.callLoop, henv] at hr
      by_cases hm : m = 0
      · subst hm; simp at hr
      · simp only [if_neg hm] at hr
        exact ih (i + 1) (sleeps + 1) r hr
    | ok raw =>
      obtain ⟨v, hd⟩ := hdir i raw henv
      have hp : (p.parser.parse raw (0 + tc)).result =
          some ⟨v, none, none, none, false⟩ := by
        unfold JSONParser.parse
        rw [hd]
      rw [Prompt.callLoop, henv] at hr
      simp only [] at hr
      rw [hp] at hr
      have hr' : (⟨some v, 0 + tc + (none : Option Nat).getD 0,
          0 + p.model.countTokens raw + (none : Option Nat).getD 0,
          0 + p.model.calculateCost (0 + tc) (0 + p.model.countTokens raw) +
            (none : Option ℚ).getD 0⟩ : CallResult α) = r := by
        simpa using hr
      subst hr'
      refine ⟨rfl, ?_⟩
      simp

/-- C1 (amended): a successful non-dry-run call in which every completion
response direct-parses (so failed attempts, if any, were completion
failures that accumulated nothing, and the successful parse took no
repair) returns a CallResult with a present response, nonnegative fields
(the token totals are naturals by construction) and cost equal to
tokensSent times the sent price plus tokensReceived times the received
price of the owning model. -/
theorem prompt_call_cost_identity {α : Type} (p : Prompt α) (env : Nat → ChainOutcome)
    (inp : CallInput) (retries : Nat) (r : CallResult α)
    (hdry : inp.dryrun = false)
    (hbudget : 0 ≤ (p.model.maxTokens : Int) - (inp.tokenCount : Int))
    (hok : (Prompt.call p env inp retries).result = CallOutcome.ok r)
    (hdir : ∀ j raw, env j = ChainOutcome.ok raw →
      ∃ v, p.parser.directParse raw = some v)
    (htx : 0 ≤ p.model.tokenTxPrice) (hrx : 0 ≤ p.model.tokensRxPrice) :
    r.response.isSome = true ∧
    r.cost = p.model.calculateCost r.tokensSent r.tokensReceived ∧
    0 ≤ r.cost := by
  have hnot : ¬ (((p.model.maxTokens : Int) - (inp.tokenCount : Int)) < 0) :=
    not_lt.mpr hbudget
  have hcall : Prompt.call p env inp retries =
      Prompt.callLoop p inp.tokenCount env 0 0 0 0 0 retries := by
    simp [Prompt.call, hnot, hdry]
  rw [hcall] at hok
  obtain ⟨h1, h2⟩ := callLoop_ok_cost p inp.tokenCount env hdir retries 0 0 r hok
  refine ⟨h1, h2, ?_⟩
  rw [h2]
  exact calculateCost_nonneg p.model _ _ htx hrx

/-- C1 as stated fails in two independent ways, both exhibited here.
First, the accumulators survive failed attempts: an attempt that fails at
the parse stage (after the completion returned) leaves its tokens and
cost behind, and the cost increment of the next attempt re-applies the
price formula to the cumulative totals, so a success after such a failure
returns cost 13 while the formula on its totals gives 9.  Second, the
repair path adds its token estimates to the totals but its cost extra is
the NaN of the price-less secondary model, dropped by the cost || 0 read,
so a first-attempt success through repair returns cost 6 while the
formula on its totals gives 8. -/
theorem prompt_call_cost_identity_counterexample :
    (Prompt.call cePrompt ceEnvParseFail ceInput 5).result =
      CallOutcome.ok ⟨some 7, 2, 7, 13⟩ ∧
    (13 : ℚ) ≠ cePrompt.model.calculateCost 2 7 ∧
    (Prompt.call cePrompt ceEnvFixOnly ceInput 5).result =
      CallOutcome.ok ⟨some 7, 2, 6, 6⟩ ∧
    (6 : ℚ) ≠ cePrompt.model.calculateCost 2 6 := by
  refine ⟨by rw [cePrompt_call_parsefail_eval], ?_,
    by rw [cePrompt_call_fixonly_eval], ?_⟩
  · norm_num [cePrompt, ceModel, Model.calculateCost]
  · norm_num [cePrompt, ceModel, Model.calculateCost]

/-- Witness for C1 (amended): a call whose first attempt throws at the
completion step and whose second attempt direct-parses satisfies the cost
identity. -/
theorem prompt_call_cost_identity_witness :
    ceInput.dryrun = false ∧
    (0 : Int) ≤ (cePrompt.model.maxTokens : Int) - (ceInput.tokenCount : Int) ∧
    (Prompt.call cePrompt ceEnvThrowThenGood ceInput 2).result =
      CallOutcome.ok ⟨some 7, 1, 4, 5⟩ ∧
    (∀ j raw, ceEnvThrowThenGood j = ChainOutcome.ok raw →
      ∃ v, cePrompt.parser.directParse raw = some v) ∧
    (0 : ℚ) ≤ cePrompt.model.tokenTxPrice ∧
    (0 : ℚ) ≤ cePrompt.model.tokensRxPrice ∧
    ((⟨some 7, 1, 4, 5⟩ : CallResult Nat).response.isSome = true ∧
     (⟨some 7, 1, 4, 5⟩ : CallResult Nat).cost =
       cePrompt.model.calculateCost 1 4 ∧
     0 ≤ (⟨some 7, 1, 4, 5⟩ : CallResult Nat).cost) :=
  ⟨rfl, by decide, by rw [cePrompt_call_throwgood_eval],
    fun j raw hj => by
      unfold ceEnvThrowThenGood at hj
      by_cases h0 : j = 0
      · rw [if_pos h0] at hj; exact absurd hj (by simp)
      · rw [if_neg h0, ChainOutcome.ok.injEq] at hj
        subst hj
        exact ⟨7, by decide⟩,
    by norm_num [cePrompt, ceModel], by norm_num [cePrompt, ceModel],
    prompt_call_cost_identity cePrompt ceEnvThrowThenGood ceInput 2 ⟨some 7, 1, 4, 5⟩
      rfl (by decide) (by rw [cePrompt_call_throwgood_eval])
      (fun j raw hj => by
        unfold ceEnvThrowThenGood at hj
        by_cases h0 : j = 0
        · rw [if_pos h0] at hj; exact absurd hj (by simp)
        · rw [if_neg h0, ChainOutcome.ok.injEq] at hj
          subst hj
          exact ⟨7, by decide⟩)
      (by norm_num [cePrompt, ceModel]) (by norm_num [cePrompt, ceModel])⟩

/-! Claim C5. -/

/-- C5 as stated fails for a caller that declares an expected response
length of zero: the fallback promptData.responseTokenLength ||
(maxTokens - tokensSent) treats the declared 0 as unset, so the dryrun
estimate reports the remaining budget 100 - 3 = 97 as tokensReceived
instead of the declared length 0. -/
theorem prompt_call_dryrun_counterexample :
    Prompt.call cePrompt ceEnvThrow ceDryZeroInput 5 =
      ⟨CallOutcome.ok ⟨none, 3, 97, 100⟩, 0, 0⟩ ∧
    ceDryZeroInput.responseTokenLength = some 0 ∧
    (97 : Nat) ≠ 0 := by
  refine ⟨?_, rfl, by decide⟩
  simp [Prompt.call, cePrompt, ceModel, ceDryZeroInput, jsOrNat, Model.calculateCost]
  norm_num

/-- C5 (amended): a within-budget dryrun call never enters the retry loop
(zero completion-capability attempts) and returns the estimate whose
tokensSent is the measured prompt token count, whose tokensReceived is the
caller-declared expected response length or, when that is unspecified or
declared as zero, the remaining budget maxTokens - tokensSent, and whose
cost is the model price formula on those totals, nonnegative for
nonnegative prices. -/
theorem prompt_call_dryrun {α : Type} (p : Prompt α) (env : Nat → ChainOutcome)
    (inp : CallInput) (retries : Nat)
    (hbudget : 0 ≤ (p.model.maxTokens : Int) - (inp.tokenCount : Int))
    (hdry : inp.dryrun = true)
    (htx : 0 ≤ p.model.tokenTxPrice) (hrx : 0 ≤ p.model.tokensRxPrice) :
    Prompt.call p env inp retries =
      ⟨CallOutcome.ok ⟨none, inp.tokenCount,
          jsOrNat inp.responseTokenLength (p.model.maxTokens - inp.tokenCount),
          p.model.calculateCost inp.tokenCount
            (jsOrNat inp.responseTokenLength (p.model.maxTokens - inp.tokenCount))⟩,
        0, 0⟩ ∧
    (∀ n, inp.responseTokenLength = some n → n ≠ 0 →
      jsOrNat inp.responseTokenLength (p.model.maxTokens - inp.tokenCount) = n) ∧
    ((inp.responseTokenLength = none ∨ inp.responseTokenLength = some 0) →
      jsOrNat inp.responseTokenLength (p.model.maxTokens - inp.tokenCount) =
        p.model.maxTokens - inp.tokenCount) ∧
    0 ≤ p.model.calculateCost inp.tokenCount
        (jsOrNat inp.responseTokenLength (p.model.maxTokens - inp.tokenCount)) := by
  have hnot : ¬ (((p.model.maxTokens : Int) - (inp.tokenCount : Int)) < 0) :=
    not_lt.mpr hbudget
  refine ⟨?_, ?_, ?_, calculateCost_nonneg p.model _ _ htx hrx⟩
  · simp [Prompt.call, hnot, hdry]
  · intro n hn hn0
    simp [jsOrNat, hn, hn0]
  · intro h
    rcases h with h | h <;> simp [jsOrNat, h]

/-- Witness for C5 at a concrete dryrun input declaring a nonzero expected
response length. -/
theorem prompt_call_dryrun_witness :
    (0 : Int) ≤ (cePrompt.model.maxTokens : Int) - (ceDryInput.tokenCount : Int) ∧
    ceDryInput.dryrun = true ∧
    (0 : ℚ) ≤ cePrompt.model.tokenTxPrice ∧
    (0 : ℚ) ≤ cePrompt.model.tokensRxPrice ∧
    (Prompt.call cePrompt ceEnvThrow ceDryInput 5 =
      ⟨CallOutcome.ok ⟨none, ceDryInput.tokenCount,
          jsOrNat ceDryInput.responseTokenLength
            (cePrompt.model.maxTokens - ceDryInput.tokenCount),
          cePrompt.model.calculateCost ceDryInput.tokenCount
            (jsOrNat ceDryInput.responseTokenLength
              (cePrompt.model.maxTokens - ceDryInput.tokenCount))⟩,
        0, 0⟩ ∧
    (∀ n, ceDryInput.responseTokenLength = some n → n ≠ 0 →
      jsOrNat ceDryInput.responseTokenLength
        (cePrompt.model.maxTokens - ceDryInput.tokenCount) = n) ∧
    ((ceDryInput.responseTokenLength = none ∨ ceDryInput.responseTokenLength = some 0) →
      jsOrNat ceDryInput.responseTokenLength
        (cePrompt.model.maxTokens - ceDryInput.tokenCount) =
        cePrompt.model.maxTokens - ceDryInput.tokenCount) ∧
    0 ≤ cePrompt.model.calculateCost ceDryInput.tokenCount
        (jsOrNat ceDryInput.responseTokenLength
          (cePrompt.model.maxTokens - ceDryInput.tokenCount))) :=
  ⟨by decide, rfl, by norm_num [cePrompt, ceModel], by norm_num [cePrompt, ceModel],
    prompt_call_dryrun cePrompt ceEnvThrow ceDryInput 5 (by decide) rfl
      (by norm_num [cePrompt, ceModel]) (by norm_num [cePrompt, ceModel])⟩

/-! Claim C4. -/

/-- C4 as stated is false on three points and this exhibits all of them:
at prompt token count 5 the repair pass's extra tokensSent is
Math.round(5 * 1.10) = 6, not the exact product 5.5; at the parser's
default prompt token count 0 the extra tokensSent is 0, not strictly
positive; and the extra cost field never holds a (strictly positive)
rational at all, because the secondary repair model is constructed
without price settings and its price formula yields NaN (modelled
none). -/
theorem jsonparser_parse_counterexample :
    (ceParser.parse "fixme" 5).result = some ⟨7, some 6, some 1, none, true⟩ ∧
    ((6 : ℚ) ≠ (5 : ℚ) * (11/10)) ∧
    (ceParser.parse "fixme" 0).result = some ⟨7, some 0, some 1, none, true⟩ ∧
    ¬ (0 < (0 : Nat)) ∧
    (∀ q : ℚ, (⟨7, some 6, some 1, none, true⟩ : ParseRes Nat).cost ≠ some q) := by
  refine ⟨by rw [ceParser_parse_fixme_five], by norm_num,
    by rw [ceParser_parse_fixme_zero], by decide, ?_⟩
  intro q
  simp

/-- C4 (amended): a raw text that directly validates parses with
repaired = false, no extra token or cost fields and no repair call; a raw
text that fails direct validation but is coerced by the repair pass parses
with repaired = true and the extra token fields populated, where the extra
tokensSent equals round(promptTokenCount * 1.10), strictly positive
provided the prompt token count is at least 1, and the extra tokensReceived
is the measured count of the stringified repaired value, strictly positive
when the tokenizer reports it so; the extra cost field holds no finite
value (the secondary repair model carries no price settings, so its price
formula yields NaN, modelled none). -/
theorem jsonparser_parse_paths {α : Type} (p : JSONParser α) (text : String)
    (P : Nat) (w : α)
    (hdir : p.directParse text = none) (hfix : p.fixParse text = some w)
    (hP : 1 ≤ P) (hw : 1 ≤ p.model.countTokens (p.stringify w)) :
    (∀ t v, p.directParse t = some v →
      p.parse t P = ⟨some ⟨v, none, none, none, false⟩, false, []⟩) ∧
    p.parse text P =
      ⟨some ⟨w, some (natRound ((P : ℚ) * (11/10))),
          some (p.model.countTokens (p.stringify w)), none, true⟩,
        true,
        [⟨natRound ((P : ℚ) * (11/10)), some (p.model.countTokens (p.stringify w))⟩]⟩ ∧
    1 ≤ natRound ((P : ℚ) * (11/10)) ∧
    1 ≤ p.model.countTokens (p.stringify w) := by
  refine ⟨?_, ?_, one_le_natRound_mul P hP, hw⟩
  · intro t v hv
    unfold JSONParser.parse
    simp [hv]
  · unfold JSONParser.parse
    simp [hdir, hfix]

/-- Witness for C4 at the concrete parser: the text good direct-parses
with no repair, and the text fixme is repaired with positive extra token
counts. -/
theorem jsonparser_parse_paths_witness :
    ceParser.directParse "fixme" = none ∧
    ceParser.fixParse "fixme" = some 7 ∧
    (1 : Nat) ≤ 5 ∧
    1 ≤ ceParser.model.countTokens (ceParser.stringify 7) ∧
    ((∀ t v, ceParser.directParse t = some v →
      ceParser.parse t 5 = ⟨some ⟨v, none, none, none, false⟩, false, []⟩) ∧
    ceParser.parse "fixme" 5 =
      ⟨some ⟨7, some (natRound ((5 : ℚ) * (11/10))),
          some (ceParser.model.countTokens (ceParser.stringify 7)), none, true⟩,
        true,
        [⟨natRound ((5 : ℚ) * (11/10)),
          some (ceParser.model.countTokens (ceParser.stringify 7))⟩]⟩ ∧
    1 ≤ natRound ((5 : ℚ) * (11/10)) ∧
    1 ≤ ceParser.model.countTokens (ceParser.stringify 7)) :=
  ⟨by decide, by decide, by decide, by decide,
    jsonparser_parse_paths ceParser "fixme" 5 7 (by decide) (by decide) (by decide)
      (by decide)⟩

/-! Claim C8. -/

/-- C8: splitText returns totalTextTokenLength equal to the whole-document
token count plus chunkOverlap times the excerpt count, and every returned
excerpt carries excerptPercentageLength =
round(excerptTokenLength / totalTextTokenLength * 100). -/
theorem textsplitter_split_totals (t : TextSplitter) (text : String) :
    (t.splitText text).totalTextTokenLength =
      t.model.countTokens text + t.chunkOverlap * (t.splitText text).excerpts.length ∧
    ∀ e, e ∈ (t.splitText text).excerpts →
      e.excerptPercentageLength =
        natRound ((e.excerptTokenLength : ℚ) /
          ((t.splitText text).totalTextTokenLength : ℚ) * 100) := by
  constructor
  · simp [TextSplitter.splitText]
  · intro e he
    unfold TextSplitter.splitText at he
    simp only [List.mem_map] at he
    obtain ⟨c, _, rfl⟩ := he
    rfl

/-- Witness for C8: the chunk ab of the concrete split has token length 2
against a total of 5 + 2 * 2 = 9, so its percentage is round(200/9) = 22. -/
theorem textsplitter_split_totals_witness :
    (⟨"ab", 2, 22⟩ : DocExcerpt) ∈ (ceSplitter.splitText "abcde").excerpts ∧
    (⟨"ab", 2, 22⟩ : DocExcerpt).excerptPercentageLength =
      natRound (((⟨"ab", 2, 22⟩ : DocExcerpt).excerptTokenLength : ℚ) /
        (((ceSplitter.splitText "abcde").totalTextTokenLength : Nat) : ℚ) * 100) :=
  ⟨by rw [ceSplitter_splitText_eval]; decide,
    (textsplitter_split_totals ceSplitter "abcde").2 _
      (by rw [ceSplitter_splitText_eval]; decide)⟩

/-! Claim C6. -/

/-- C6: an excerpt whose processing throws is caught and logged and the
loop continues with the next excerpt from an unchanged state, so one
excerpt's failure never aborts the document; consequently the whole run
equals the run over the successfully processed excerpts alone, and the
terminal state carries the last-seen response and the totals accumulated
across every excerpt attempted. -/
theorem documentprompt_failed_excerpt_skipped {α : Type} (d : DocumentPrompt α)
    (progress : Option (DocState α → String)) :
    (∀ ex m rest s,
      DocumentPrompt.callLoop d progress false s
          ((ex, ⟨m, ExcerptStep.throwErr⟩) :: rest) =
        DocumentPrompt.callLoop d progress false s rest) ∧
    (∀ steps s,
      DocumentPrompt.callLoop d progress false s steps =
        DocumentPrompt.callLoop d progress false s
          (steps.filter (fun q => !(ExcerptStep.isThrow q.2.callOutcome)))) := by
  constructor
  · intro ex m rest s
    rfl
  · intro steps
    induction steps with
    | nil => intro s; rfl
    | cons hd tl ih =>
      intro s
      obtain ⟨ex, m, co⟩ := hd
      cases co with
      | throwErr =>
        have h1 : DocumentPrompt.callLoop d progress false s
            ((ex, ⟨m, ExcerptStep.throwErr⟩) :: tl) =
            DocumentPrompt.callLoop d progress false s tl := rfl
        have h2 : List.filter (fun q => !(ExcerptStep.isThrow q.2.callOutcome))
            ((ex, ⟨m, (ExcerptStep.throwErr : ExcerptStep α)⟩) :: tl) =
            List.filter (fun q => !(ExcerptStep.isThrow q.2.callOutcome)) tl := rfl
        rw [h1, h2]
        exact ih s
      | ok resp ts tr c =>
        have h2 : List.filter (fun q => !(ExcerptStep.isThrow q.2.callOutcome))
            ((ex, ⟨m, ExcerptStep.ok resp ts tr c⟩) :: tl) =
            (ex, ⟨m, ExcerptStep.ok resp ts tr c⟩) ::
              List.filter (fun q => !(ExcerptStep.isThrow q.2.callOutcome)) tl := rfl
        rw [h2]
        cases progress with
        | none =>
          have h1 : ∀ (l : List (DocExcerpt × ExcerptEnv α)),
              DocumentPrompt.callLoop d none false s
                ((ex, ⟨m, ExcerptStep.ok resp ts tr c⟩) :: l) =
              DocumentPrompt.callLoop d none false
                (DocumentPrompt.applyOk s ex resp ts tr c) l := fun l => rfl
          rw [h1, h1]
          exact ih _
        | some f =>
          have h1 : ∀ (l : List (DocExcerpt × ExcerptEnv α)),
              DocumentPrompt.callLoop d (some f) false s
                ((ex, ⟨m, ExcerptStep.ok resp ts tr c⟩) :: l) =
              if f (DocumentPrompt.applyOk s ex resp ts tr c) = "stop"
                then DocumentPrompt.applyOk s ex resp ts tr c
                else DocumentPrompt.callLoop d (some f) false
                  (DocumentPrompt.applyOk s ex resp ts tr c) l := fun l => rfl
          rw [h1, h1]
          by_cases hstop : f (DocumentPrompt.applyOk s ex resp ts tr c) = "stop"
          · rw [if_pos hstop, if_pos hstop]
          · rw [if_neg hstop, if_neg hstop]
            exact ih _

/-! Claim C7. -/

/-- C7: after each processed excerpt the progress callback, when present,
receives the running state, and the sentinel return value stop halts the
iteration at that state; concretely, a two-excerpt document whose callback
answers stop after the first excerpt ends with count = 1 and the first
excerpt's response only. -/
theorem documentprompt_progress_stop {α : Type} (d : DocumentPrompt α) :
    (∀ ex m resp ts tr c rest f (s : DocState α),
      DocumentPrompt.callLoop d (some f) false s
          ((ex, ⟨m, ExcerptStep.ok resp ts tr c⟩) :: rest) =
        if f (DocumentPrompt.applyOk s ex resp ts tr c) = "stop"
          then DocumentPrompt.applyOk s ex resp ts tr c
          else DocumentPrompt.callLoop d (some f) false
            (DocumentPrompt.applyOk s ex resp ts tr c) rest) ∧
    DocumentPrompt.call ceDoc ceTwoSteps (some ceStopCallback) false =
      ⟨1, 9, 8, 7, some 41, 5⟩ ∧
    (DocumentPrompt.call ceDoc ceTwoSteps (some ceStopCallback) false).count = 1 ∧
    (DocumentPrompt.call ceDoc ceTwoSteps (some ceStopCallback) false).response =
      some 41 := by
  have heval : DocumentPrompt.call ceDoc ceTwoSteps (some ceStopCallback) false =
      ⟨1, 9, 8, 7, some 41, 5⟩ := by
    simp [DocumentPrompt.call, DocumentPrompt.callLoop, DocumentPrompt.applyOk,
      ceDoc, ceTwoSteps, ceExcerptOne, ceExcerptTwo, ceStopCallback]
  refine ⟨?_, heval, by rw [heval], by rw [heval]⟩
  intro ex m resp ts tr c rest f s
  rfl

end Llmade
